import Mathlib

/-!
Verification of `our-mcp-base` / `oro-mcp-base` — an MCP server base framework.

Shallow embedding of the repository's Python modules:
- `src/our_mcp_base/responses.py` : envelope constructors over Python dicts;
- `src/oro_mcp_base/router.py`    : `ToolRouter` registry and dispatch;
- `src/our_mcp_base/server.py`    : `MCPServerBase._handle_tool_call`
  (protected call handler with the ordered error-handler chain) and
  `MCPServerBase.run` (lifecycle: health-check mode, startup hook, serve loop).

Python dicts with string keys are modelled as association lists with
insertion-order semantics: inserting an existing key replaces its value in
place, inserting a fresh key appends.  `{a: v, **kwargs}` is modelled by
folding the kwargs entries into the literal part with `dictInsert`.
Raised exceptions are modelled with `Except`; a Python exception value
carries its message and its method-resolution-order list of class names, so
that `isinstance(e, C)` becomes membership of `C` in that list.  Payload
encoding (`json.dumps`) is an external collaborator per the design's scope,
so a transport `TextContent` item here carries the payload mapping itself.
-/

namespace OurMcpBase

/-- A Python value, as far as the envelopes in this repository need:
strings, booleans and integers. -/
inductive Value where
  | str (s : String)
  | bool (b : Bool)
  | int (n : Int)
  deriving DecidableEq, Repr

/-- A Python dict with string keys, in insertion order. -/
abbrev Dict := List (String × Value)

/-- Python dict insertion: an existing key keeps its position and gets the
new value; a fresh key is appended at the end. -/
def dictInsert : Dict → String → Value → Dict
  | [], k, v => [(k, v)]
  | (k', v') :: rest, k, v =>
      if k' = k then (k', v) :: rest
      else (k', v') :: dictInsert rest k v

/-- Folding a sequence of entries into a dict, in order: the semantics of
`{<literal entries>, **kwargs}` applied to the literal part. -/
def dictExtend (d : Dict) (kvs : List (String × Value)) : Dict :=
  kvs.foldl (fun acc kv => dictInsert acc kv.1 kv.2) d

/-- Python `d.get(k)` / `d[k]`: the value bound to `k`, if any. -/
def dictGet (d : Dict) (k : String) : Option Value :=
  (d.find? (fun kv => kv.1 = k)).map (fun kv => kv.2)

/-- Python `k in d`. -/
def hasKey (d : Dict) (k : String) : Bool :=
  d.any (fun kv => kv.1 = k)

/-! ### responses.py -/

/-- `success_response(**kwargs)` = `{"success": True, **kwargs}`. -/
def success_response (kwargs : List (String × Value)) : Dict :=
  dictExtend [("success", .bool true)] kwargs

/-- `error_response(error, **kwargs)` = `{"success": False, "error": error, **kwargs}`. -/
def error_response (error : String) (kwargs : List (String × Value)) : Dict :=
  dictExtend [("success", .bool false), ("error", .str error)] kwargs

/-- `not_found_response(resource_type, resource_id)` =
`error_response(f"{resource_type} not found: {resource_id}")`. -/
def not_found_response (resource_type resource_id : String) : Dict :=
  error_response (resource_type ++ " not found: " ++ resource_id) []

/-! ### router.py -/

/-- A tool handler: the Python callable receives the entries of the argument
dict spread as keyword arguments and returns a response dict; here it
receives the argument mapping itself. -/
abbrev Handler := Dict → Dict

/-- `ToolRouter._handlers`: the name-to-handler dict. -/
abbrev Router := List (String × Handler)

/-- `self._handlers.get(name)`. -/
def routerGet (r : Router) (name : String) : Option Handler :=
  (r.find? (fun p => p.1 = name)).map (fun p => p.2)

/-- `ToolRouter.register(name)(func)`: stores `func` under `name`
(replacing any previous binding, keeping its position) and returns `func`. -/
def register (r : Router) (name : String) (func : Handler) : Router × Handler :=
  (r.map (fun p => if p.1 = name then (p.1, func) else p) |>.append
    (if (r.find? (fun p => p.1 = name)).isSome then [] else [(name, func)]), func)

/-- `ToolRouter.dispatch(name, arguments)`: look the name up; if absent
return `error_response(f"Unknown tool: {name}")`; otherwise invoke the
handler on the arguments and return its result unmodified. -/
def dispatch (r : Router) (name : String) (args : Dict) : Dict :=
  match routerGet r name with
  | none => error_response ("Unknown tool: " ++ name) []
  | some handler => handler args

/-- `ToolRouter.has_tool(name)`. -/
def has_tool (r : Router) (name : String) : Bool :=
  (routerGet r name).isSome

/-! ### server.py : the protected call handler -/

/-- A raised Python exception: its message (`str(e)`) and the list of class
names along its method resolution order, most specific first, so that
`isinstance(e, C)` is membership of `C` in `mro`. -/
structure Exc where
  mro : List String
  msg : String
  deriving DecidableEq, Repr

/-- `isinstance(e, excType)` for a class named `c`. -/
def isInst (e : Exc) (c : String) : Bool :=
  e.mro.contains c

/-- One transport content item.  In the source this is
`TextContent(type="text", text=json.dumps(payload, ...))`; the encoding to
text is the external encoding collaborator, so the item carries the payload
mapping. -/
structure TextContent where
  type : String
  payload : Dict
  deriving DecidableEq, Repr

/-- An error-handler chain entry `(ExceptionType, handler)`: the class name
matched by `isinstance`, and the recovery function receiving
`(exception, tool_name)` and returning a transport-ready response. -/
abbrev ErrorHandlers := List (String × (Exc → String → List TextContent))

/-- `MCPServerBase._handle_tool_call(name, arguments)`.

The abstract `handle_tool` either returns a result dict or raises; the
result type `Except Exc _` records whether the call handler itself raises.
The returned pair carries the messages passed to the logger (`logger.exception`)
alongside the transport response, so logging behaviour is visible.

Control flow, as in the source: call `handle_tool`; on a normal result wrap
it as a single `TextContent`; on a raised exception scan the configured
error handlers in order and return the first matching handler's result;
if none matches, log `"Unexpected error in tool {name}"` and return the
generic `{"success": False, "error": f"Internal error: {e!s}"}` response. -/
def handleToolCall (handle_tool : String → Dict → Except Exc Dict)
    (error_handlers : ErrorHandlers) (name : String) (args : Dict) :
    Except Exc (List String × List TextContent) :=
  match handle_tool name args with
  | .ok result => .ok ([], [⟨"text", result⟩])
  | .error e =>
      match error_handlers.find? (fun p => isInst e p.1) with
      | some p => .ok ([], p.2 e name)
      | none =>
          .ok (["Unexpected error in tool " ++ name],
               [⟨"text", [("success", .bool false),
                          ("error", .str ("Internal error: " ++ e.msg))]⟩])

/-! ### server.py : the lifecycle -/

/-- An observable event during `MCPServerBase.run`. -/
inductive RunEvent where
  | healthCheckInvoked
  | startupHookInvoked
  | logged (msg : String)
  | serveLoopEntered
  deriving DecidableEq, Repr

/-- How a `run()` invocation ends, from the lifecycle's own point of view:
`sys.exit(code)`, an exception re-raised out of `run`, or entry into the
(indefinite) serve loop. -/
inductive RunOutcome where
  | exited (code : Int)
  | raised (e : Exc)
  | serving
  deriving DecidableEq, Repr

/-- `MCPServerBase.run()` with the flags already parsed.

`health_check` is the optional health-check collaborator (modelled by the
exit code it returns when invoked); `startup_hook` is the optional startup
hook (modelled by its outcome: normal return or a raised exception).
`healthCheckFlag` and `skipFlag` are `getattr(args, ..., False)`: when the
corresponding collaborator is absent the flag does not exist and reads
`False`, which the `is not None and` / `is not None and not` guards make
irrelevant, exactly as here.

Source order: if `self._health_check is not None and args.health_check`,
`sys.exit(self._health_check())`; else log startup, then if
`self._startup_hook is not None and not args.skip_startup_hook` invoke the
hook — on success log completion, on exception log failure and re-raise —
and finally enter the serve loop (`asyncio.run(main())`). -/
def run (server_name : String) (health_check : Option Int)
    (startup_hook : Option (Except Exc Unit))
    (healthCheckFlag skipFlag : Bool) : List RunEvent × RunOutcome :=
  match health_check, healthCheckFlag with
  | some code, true => ([.healthCheckInvoked], .exited code)
  | _, _ =>
      let startLog : List RunEvent :=
        [.logged (server_name ++ " MCP server starting...")]
      match startup_hook, skipFlag with
      | some hook, false =>
          match hook with
          | .ok _ =>
              (startLog ++ [.startupHookInvoked, .logged "Startup hook completed",
                            .serveLoopEntered], .serving)
          | .error e =>
              (startLog ++ [.startupHookInvoked, .logged "Startup hook failed"],
               .raised e)
      | _, _ => (startLog ++ [.serveLoopEntered], .serving)

/-- `a` occurs in the list strictly before some later occurrence of `b`. -/
def occursBefore (a b : RunEvent) : List RunEvent → Bool
  | [] => false
  | x :: xs => if x = a then xs.contains b else occursBefore a b xs

/-! ### Dict lemmas -/

theorem dictGet_dictInsert (d : Dict) (k' k : String) (v : Value) :
    dictGet (dictInsert d k' v) k = if k' = k then some v else dictGet d k := by
  induction d with
  | nil => by_cases h : k' = k <;> simp [dictInsert, dictGet, List.find?, h]
  | cons hd tl ih =>
      obtain ⟨k₀, v₀⟩ := hd
      by_cases h₀ : k₀ = k'
      · subst h₀
        by_cases h₁ : k₀ = k <;> simp [dictInsert, dictGet, List.find?, h₁]
      · by_cases h₁ : k₀ = k
        · subst h₁
          simp only [dictInsert, if_neg h₀]
          have : ¬ k' = k₀ := fun h => h₀ h.symm
          simp [dictGet, List.find?, this]
        · simp only [dictInsert, if_neg h₀]
          simpa [dictGet, List.find?, h₁] using ih

theorem hasKey_eq_isSome (d : Dict) (k : String) :
    hasKey d k = (dictGet d k).isSome := by
  induction d with
  | nil => simp [hasKey, dictGet, List.find?]
  | cons hd tl ih =>
      by_cases h : hd.1 = k <;> simp [hasKey, dictGet, List.find?, h] at ih ⊢
      simpa [hasKey, dictGet] using ih

theorem dictGet_dictExtend_of_not_mem (kvs : List (String × Value)) (d : Dict)
    (k : String) (h : ∀ p ∈ kvs, p.1 ≠ k) :
    dictGet (dictExtend d kvs) k = dictGet d k := by
  induction kvs generalizing d with
  | nil => rfl
  | cons hd tl ih =>
      have hhd : hd.1 ≠ k := h hd (List.mem_cons_self hd tl)
      have htl : ∀ p ∈ tl, p.1 ≠ k := fun p hp => h p (List.mem_cons_of_mem hd hp)
      calc dictGet (dictExtend d (hd :: tl)) k
          = dictGet (dictExtend (dictInsert d hd.1 hd.2) tl) k := rfl
        _ = dictGet (dictInsert d hd.1 hd.2) k := ih _ htl
        _ = dictGet d k := by rw [dictGet_dictInsert, if_neg hhd]

/-! ### Claims about the envelope constructors -/

/-- C6: the envelope constructors produce exactly the specified mappings:
`success_response(data="x")` is `{success: true, data: "x"}`,
`error_response("e")` is `{success: false, error: "e"}`, and
`not_found_response("User", "42")` equals `error_response("User not found: 42")`,
that is `{success: false, error: "User not found: 42"}`, the error string
matching exactly. -/
theorem envelope_constructors_roundtrip :
    success_response [("data", .str "x")] =
      [("success", .bool true), ("data", .str "x")] ∧
    error_response "e" [] = [("success", .bool false), ("error", .str "e")] ∧
    not_found_response "User" "42" = error_response "User not found: 42" [] ∧
    not_found_response "User" "42" =
      [("success", .bool false), ("error", .str "User not found: 42")] := by
  refine ⟨rfl, rfl, rfl, rfl⟩

/-- C10: caller-supplied fields are merged after the mandatory ones and so
take precedence: `success_response(success=False)` yields `{success: false}`,
and `error_response("e", success=True)` yields `{success: true, error: "e"}` —
the success flag of an envelope can be silently overridden. -/
theorem kwargs_override_mandatory_fields :
    success_response [("success", .bool false)] = [("success", .bool false)] ∧
    error_response "e" [("success", .bool true)] =
      [("success", .bool true), ("error", .str "e")] := by
  refine ⟨rfl, rfl⟩

/-- C7 counterexample: the claim that `success_response(**fields)` never
yields a mapping containing both `success=true` and an `error` key fails at
`fields = {error: "boom"}`: the result carries `success=true` and an
`error` key. -/
theorem success_response_error_key_counterexample :
    dictGet (success_response [("error", .str "boom")]) "success" =
      some (.bool true) ∧
    hasKey (success_response [("error", .str "boom")]) "error" = true := by
  refine ⟨rfl, rfl⟩

/-- C7 (amended): provided the caller-supplied fields contain neither the
key `success` nor the key `error`, the constructors satisfy the envelope
invariant: `success_response` yields `success=true` with no `error` key and
`error_response` yields `success=false` with its `error` string. -/
theorem envelope_invariant (fields : List (String × Value)) (err : String)
    (h1 : ∀ p ∈ fields, p.1 ≠ "success") (h2 : ∀ p ∈ fields, p.1 ≠ "error") :
    dictGet (success_response fields) "success" = some (.bool true) ∧
    hasKey (success_response fields) "error" = false ∧
    dictGet (error_response err fields) "success" = some (.bool false) ∧
    dictGet (error_response err fields) "error" = some (.str err) := by
  refine ⟨?_, ?_, ?_, ?_⟩
  · rw [success_response, dictGet_dictExtend_of_not_mem _ _ _ h1]; rfl
  · rw [hasKey_eq_isSome, success_response,
      dictGet_dictExtend_of_not_mem _ _ _ h2]; rfl
  · rw [error_response, dictGet_dictExtend_of_not_mem _ _ _ h1]; rfl
  · rw [error_response, dictGet_dictExtend_of_not_mem _ _ _ h2]; rfl

/-- Witness for the amended C7 at `fields = {data: "x"}`, `err = "e"`. -/
theorem envelope_invariant_witness :
    ((∀ p ∈ [(("data" : String), Value.str "x")], p.1 ≠ "success") ∧
     (∀ p ∈ [(("data" : String), Value.str "x")], p.1 ≠ "error")) ∧
    (dictGet (success_response [("data", .str "x")]) "success" =
        some (.bool true) ∧
     hasKey (success_response [("data", .str "x")]) "error" = false ∧
     dictGet (error_response "e" [("data", .str "x")]) "success" =
        some (.bool false) ∧
     dictGet (error_response "e" [("data", .str "x")]) "error" =
        some (.str "e")) :=
  ⟨⟨by decide, by decide⟩,
   envelope_invariant [("data", .str "x")] "e" (by decide) (by decide)⟩

/-! ### Claims about the router -/

/-- C2: for every registered `(name, handler)` pair, `dispatch name args`
invokes exactly that handler on the argument mapping (the entries of which
the Python call spreads as keyword arguments) and returns its result
unchanged, with no wrapping or modification of the envelope. -/
theorem dispatch_registered (r : Router) (name : String) (handler : Handler)
    (args : Dict) (h : routerGet r name = some handler) :
    dispatch r name args = handler args := by
  simp [dispatch, h]

/-- Witness for C2: a one-entry router whose handler echoes the arguments. -/
theorem dispatch_registered_witness :
    routerGet [("t", fun args => args)] "t" = some (fun args => args) ∧
    dispatch [("t", fun args => args)] "t" [("x", .int 3)] = [("x", .int 3)] :=
  ⟨rfl, dispatch_registered [("t", fun args => args)] "t" (fun args => args)
    [("x", .int 3)] rfl⟩

/-- C3: for every unregistered name and every argument mapping, `dispatch`
invokes no handler and returns (without raising) the envelope
`error_response ("Unknown tool: " ++ name)`, whose `success` field is
`false` and whose `error` field contains the requested name. -/
theorem dispatch_unknown (r : Router) (name : String) (args : Dict)
    (h : routerGet r name = none) :
    dispatch r name args = error_response ("Unknown tool: " ++ name) [] ∧
    dictGet (dispatch r name args) "success" = some (.bool false) ∧
    dictGet (dispatch r name args) "error" =
      some (.str ("Unknown tool: " ++ name)) ∧
    ∃ s t, "Unknown tool: " ++ name = s ++ name ++ t := by
  refine ⟨by simp [dispatch, h], ?_, ?_, "Unknown tool: ", "", by simp⟩ <;>
    simp [dispatch, h, error_response, dictExtend, dictGet, List.find?]

/-- Witness for C3 at an empty router. -/
theorem dispatch_unknown_witness :
    routerGet [] "nonexistent" = none ∧
    (dispatch [] "nonexistent" [] =
        error_response ("Unknown tool: " ++ "nonexistent") [] ∧
     dictGet (dispatch [] "nonexistent" []) "success" = some (.bool false) ∧
     dictGet (dispatch [] "nonexistent" []) "error" =
        some (.str ("Unknown tool: " ++ "nonexistent")) ∧
     ∃ s t, "Unknown tool: " ++ "nonexistent" = s ++ "nonexistent" ++ t) :=
  ⟨rfl, dispatch_unknown [] "nonexistent" [] rfl⟩

/-! ### Claims about the protected call handler -/

/-- C1: whatever `handle_tool` does — return normally or raise any
exception, whether or not a configured error-handler entry matches and its
recovery function is invoked — the protected call handler
`_handle_tool_call` returns a response and never itself raises, so no
failure from a single call propagates to the serve loop. -/
theorem handleToolCall_never_raises
    (handle_tool : String → Dict → Except Exc Dict)
    (error_handlers : ErrorHandlers) (name : String) (args : Dict) :
    ∃ response, handleToolCall handle_tool error_handlers name args =
      Except.ok response := by
  unfold handleToolCall
  cases handle_tool name args with
  | ok result => exact ⟨_, rfl⟩
  | error e =>
      dsimp only
      cases h : error_handlers.find? (fun p => isInst e p.1) with
      | none => exact ⟨_, rfl⟩
      | some p => exact ⟨_, rfl⟩

/-- C4: with the chain `[(SpecificFailure, H1), (BaseFailure, H2)]` and a
raised exception that is an instance of `SpecificFailure` (and, the class
being a subclass, also of `BaseFailure`), the protected call handler
returns `H1`'s result; the result does not depend on `H2`, which is never
examined (first match wins). -/
theorem error_chain_first_match_wins
    (handle_tool : String → Dict → Except Exc Dict) (name sub sup : String)
    (args : Dict) (e : Exc) (H1 H2 : Exc → String → List TextContent)
    (hraise : handle_tool name args = Except.error e)
    (hsub : isInst e sub = true) (_hsup : isInst e sup = true) :
    handleToolCall handle_tool [(sub, H1), (sup, H2)] name args =
      Except.ok ([], H1 e name) := by
  simp [handleToolCall, hraise, List.find?, hsub]

/-- Witness for C4: `e` is a `SpecificFailure`, which is-a `BaseFailure`;
the response is `H1`'s, not `H2`'s. -/
theorem error_chain_first_match_wins_witness :
    ((fun (_ : String) (_ : Dict) =>
        (Except.error ⟨["SpecificFailure", "BaseFailure", "Exception"], "x"⟩ :
          Except Exc Dict)) "t" [] =
      Except.error ⟨["SpecificFailure", "BaseFailure", "Exception"], "x"⟩ ∧
     isInst ⟨["SpecificFailure", "BaseFailure", "Exception"], "x"⟩
        "SpecificFailure" = true ∧
     isInst ⟨["SpecificFailure", "BaseFailure", "Exception"], "x"⟩
        "BaseFailure" = true) ∧
    handleToolCall
      (fun _ _ => Except.error ⟨["SpecificFailure", "BaseFailure", "Exception"], "x"⟩)
      [("SpecificFailure", fun _ _ => [⟨"text", [("handled", .str "H1")]⟩]),
       ("BaseFailure", fun _ _ => [⟨"text", [("handled", .str "H2")]⟩])]
      "t" [] =
      Except.ok ([], [⟨"text", [("handled", .str "H1")]⟩]) :=
  ⟨⟨rfl, rfl, rfl⟩,
   error_chain_first_match_wins _ "t" "SpecificFailure" "BaseFailure" []
     ⟨["SpecificFailure", "BaseFailure", "Exception"], "x"⟩ _ _ rfl rfl rfl⟩

/-- C5: when the raised exception matches no entry of the configured chain,
the protected call handler falls back to the default: it logs the failure
with the tool name and returns the single response
`{"success": false, "error": "Internal error: " ++ str(e)}`, whose error
string has `"Internal error"` as a prefix (hence as a substring). -/
theorem error_chain_default_fallback
    (handle_tool : String → Dict → Except Exc Dict)
    (error_handlers : ErrorHandlers) (name : String) (args : Dict) (e : Exc)
    (hraise : handle_tool name args = Except.error e)
    (hnone : ∀ p ∈ error_handlers, isInst e p.1 = false) :
    handleToolCall handle_tool error_handlers name args =
      Except.ok (["Unexpected error in tool " ++ name],
        [⟨"text", [("success", .bool false),
                   ("error", .str ("Internal error: " ++ e.msg))]⟩]) ∧
    (∃ t, "Internal error: " ++ e.msg = "Internal error" ++ t) ∧
    (∃ t, "Unexpected error in tool " ++ name = t ++ name) := by
  have hfind : error_handlers.find? (fun p => isInst e p.1) = none := by
    rw [List.find?_eq_none]
    intro p hp
    simp [hnone p hp]
  exact ⟨by simp [handleToolCall, hraise, hfind], ⟨": " ++ e.msg, rfl⟩,
    ⟨"Unexpected error in tool ", rfl⟩⟩

/-- Witness for C5 with a one-entry chain that does not match. -/
theorem error_chain_default_fallback_witness :
    ((fun (_ : String) (_ : Dict) =>
        (Except.error ⟨["KeyError", "Exception"], "boom"⟩ : Except Exc Dict))
      "t" [] = Except.error ⟨["KeyError", "Exception"], "boom"⟩ ∧
     (∀ p ∈ [(("ValueError" : String),
          fun (_ : Exc) (_ : String) => ([] : List TextContent))],
        isInst ⟨["KeyError", "Exception"], "boom"⟩ p.1 = false)) ∧
    (handleToolCall (fun _ _ => Except.error ⟨["KeyError", "Exception"], "boom"⟩)
        [("ValueError", fun _ _ => [])] "t" [] =
      Except.ok (["Unexpected error in tool " ++ "t"],
        [⟨"text", [("success", .bool false),
                   ("error", .str ("Internal error: " ++ "boom"))]⟩]) ∧
     (∃ t, "Internal error: " ++ "boom" = "Internal error" ++ t) ∧
     (∃ t, "Unexpected error in tool " ++ "t" = t ++ "t")) :=
  ⟨⟨rfl, by intro p hp; simp at hp; simp [hp, isInst]⟩,
   error_chain_default_fallback _ [("ValueError", fun _ _ => [])] "t" []
     ⟨["KeyError", "Exception"], "boom"⟩ rfl
     (by intro p hp; simp at hp; simp [hp, isInst])⟩

/-! ### Claims about the lifecycle -/

/-- C8: with a health-check collaborator supplied and the health-check flag
set, `run` invokes the health check and terminates the process with exactly
the integer it returned as exit status (0 stays 0, 1 stays 1); neither the
startup hook nor the serve loop is ever entered in this mode. -/
theorem run_health_check_mode (server_name : String) (code : Int)
    (startup_hook : Option (Except Exc Unit)) (skipFlag : Bool) :
    run server_name (some code) startup_hook true skipFlag =
      ([.healthCheckInvoked], .exited code) ∧
    RunEvent.startupHookInvoked ∉
      (run server_name (some code) startup_hook true skipFlag).1 ∧
    RunEvent.serveLoopEntered ∉
      (run server_name (some code) startup_hook true skipFlag).1 := by
  refine ⟨rfl, ?_, ?_⟩ <;> simp [run]

/-- C9: with a startup hook supplied and outside health-check mode: with
the skip flag unset, `run` invokes the hook exactly once and, whenever the
serve loop is reached, the invocation precedes it; with the skip flag set,
the hook is never invoked; and when the hook raises, `run` logs the failure
and re-raises the exception, never reaching the serve loop. -/
theorem run_startup_hook (server_name : String) (health_check : Option Int)
    (hook : Except Exc Unit) (hcFlag : Bool)
    (hmode : health_check = none ∨ hcFlag = false) :
    ((run server_name health_check (some hook) hcFlag false).1.count
        .startupHookInvoked = 1 ∧
     ((run server_name health_check (some hook) hcFlag false).2 = .serving →
        occursBefore .startupHookInvoked .serveLoopEntered
          (run server_name health_check (some hook) hcFlag false).1 = true)) ∧
    (run server_name health_check (some hook) hcFlag true).1.count
        .startupHookInvoked = 0 ∧
    (∀ e, hook = .error e →
      (run server_name health_check (some hook) hcFlag false).2 = .raised e ∧
      RunEvent.logged "Startup hook failed" ∈
        (run server_name health_check (some hook) hcFlag false).1 ∧
      RunEvent.serveLoopEntered ∉
        (run server_name health_check (some hook) hcFlag false).1) := by
  have hrun : ∀ skip : Bool,
      run server_name health_check (some hook) hcFlag skip =
        run server_name none (some hook) false skip := by
    intro skip
    rcases hmode with h | h
    · subst h; cases hcFlag <;> rfl
    · subst h; cases health_check <;> rfl
  rw [hrun, hrun]
  cases hook with
  | ok u =>
      refine ⟨⟨?_, fun _ => ?_⟩, ?_, fun e he => by cases he⟩ <;>
        simp [run, occursBefore, List.count_cons]
  | error e =>
      refine ⟨⟨?_, fun hserve => ?_⟩, ?_, fun e' he' => ⟨?_, ?_, ?_⟩⟩
      · simp [run, List.count_cons]
      · cases hserve
      · simp [run, List.count_cons]
      · cases he'; rfl
      · simp [run]
      · simp [run]

/-- Witness for C9 at a server with no health check whose hook succeeds. -/
theorem run_startup_hook_witness :
    ((none : Option Int) = none ∨ false = false) ∧
    (((run "s" none (some (.ok ())) false false).1.count
        .startupHookInvoked = 1 ∧
      ((run "s" none (some (.ok ())) false false).2 = .serving →
        occursBefore .startupHookInvoked .serveLoopEntered
          (run "s" none (some (.ok ())) false false).1 = true)) ∧
     (run "s" none (some (.ok ())) false true).1.count
        .startupHookInvoked = 0 ∧
     (∀ e, (Except.ok () : Except Exc Unit) = .error e →
       (run "s" none (some (.ok ())) false false).2 = .raised e ∧
       RunEvent.logged "Startup hook failed" ∈
         (run "s" none (some (.ok ())) false false).1 ∧
       RunEvent.serveLoopEntered ∉
         (run "s" none (some (.ok ())) false false).1)) :=
  ⟨Or.inl rfl, run_startup_hook "s" none (.ok ()) false (Or.inl rfl)⟩

end OurMcpBase
